import Mathlib

/-!
Verification development for the neoke cloud-wallet client.

Shallow embedding of the two stateful units of the repository:
- the credential reconciler, `src/store/localCredentials.ts`
  (`getLocalCredentials`, `saveLocalCredential`, `deleteLocalCredential`,
  `mergeWithLocalCredentials`), together with the dashboard fetch cycle
  `fetchCredentials` of `src/screens/DashboardScreen.tsx`;
- the session manager of `src/context/AuthContext.tsx` (full variant,
  with storage keys `neoke_s_token`, `neoke_s_expires`, `neoke_node_id`,
  `neoke_activity`): `authReducer`, `isWithinActivityWindow`, `initState`,
  the persist and expiry-watch effects, and `logout`.

Browser storage is modelled by explicit state passing.  `localStorage` and
`sessionStorage` calls can throw (quota exceeded, storage disabled);
operations whose storage calls are wrapped in try/catch in the source are
total Lean functions, while operations whose storage writes are unguarded
are embedded in `Except`, indexed by a `StorageMode` that says whether the
storage layer is throwing.  JavaScript `x ?? y` is `orJS`, `x || y` on
strings is `orStr`, and JS truthiness of nullable strings/numbers is
`truthyS` / `truthyI`.  Stored numbers pass through `parseInt`, which can
produce `NaN`; `JsNum` models that (every comparison with `NaN` is false,
and `NaN` is falsy), so the restore path that accepts a non-numeric stored
expiry is represented.
-/

namespace NeokeWallet

/-- Opaque JSON-ish leaf values carried inside a credential
(`Record<string, unknown>` in `src/types/index.ts`). -/
inductive JsonVal where
  | null : JsonVal
  | bool (b : Bool) : JsonVal
  | num (n : Int) : JsonVal
  | str (s : String) : JsonVal
deriving DecidableEq

/-- `CredentialStatus` from `src/types/index.ts`. -/
inductive CredentialStatus where
  | active
  | suspended
  | revoked
  | expired
deriving DecidableEq

/-- `DisplayMetadata` from `src/types/index.ts`. -/
structure DisplayMetadata where
  backgroundColor : Option String := none
  textColor : Option String := none
  logoUrl : Option String := none
  label : Option String := none
  description : Option String := none
deriving DecidableEq

/-- `Credential` from `src/types/index.ts`.  `namespaces` is
`Record<string, Record<string, unknown>>` and `credentialSubject` is
`Record<string, unknown>`, modelled as association lists over `JsonVal`.
`_availableClaims` is the extra raw field read by the merge
(`src/store/localCredentials.ts` lines 58-60). -/
structure Credential where
  id : String
  type : List String := []
  issuer : String := ""
  issuanceDate : Option String := none
  expirationDate : Option String := none
  credentialSubject : Option (List (String × JsonVal)) := none
  docType : Option String := none
  namespaces : Option (List (String × List (String × JsonVal))) := none
  status : Option CredentialStatus := none
  displayMetadata : Option DisplayMetadata := none
  _availableClaims : Option (List String) := none
deriving DecidableEq

/-- JavaScript `a ?? b` on nullable values. -/
def orJS {α : Type} (a b : Option α) : Option α :=
  match a with
  | some x => some x
  | none => b

/-- JavaScript `a || b` on strings (`""` is falsy). -/
def orStr (a b : String) : String :=
  if a = "" then b else a

/-- JS truthiness of a nullable string (`null` and `""` are falsy). -/
def truthyS : Option String → Bool
  | none => false
  | some s => s != ""

/-- A JS number as produced by `parseInt`: either an integer or `NaN`
(when the parsed string has no leading digits). -/
inductive JsNum where
  | nan
  | int (n : Int)
deriving DecidableEq

/-- JS truthiness of a number (`0` and `NaN` are falsy). -/
def truthyN : JsNum → Bool
  | JsNum.nan => false
  | JsNum.int n => n != 0

/-- JS truthiness of a nullable number (`null`, `0` and `NaN` are falsy). -/
def truthyI : Option JsNum → Bool
  | none => false
  | some n => truthyN n

/-- JS `now >= e - k` for a parsed number `e`: every comparison with `NaN`
is false. -/
def jsGeMinus (now : Int) (e : JsNum) (k : Int) : Bool :=
  match e with
  | JsNum.nan => false
  | JsNum.int n => now ≥ n - k

/-- The merged entry built for a server credential with a local match,
`src/store/localCredentials.ts` lines 51-63: a spread of `localMatch`
overridden by the listed fields. -/
def mergeEntry (localMatch serverCred : Credential) : Credential :=
  { localMatch with
    id := serverCred.id
    issuer := orStr serverCred.issuer localMatch.issuer
    issuanceDate := orJS serverCred.issuanceDate localMatch.issuanceDate
    expirationDate := orJS serverCred.expirationDate localMatch.expirationDate
    status := orJS serverCred.status localMatch.status
    _availableClaims := orJS serverCred._availableClaims localMatch._availableClaims
    namespaces := orJS serverCred.namespaces localMatch.namespaces
    displayMetadata := orJS serverCred.displayMetadata localMatch.displayMetadata }

/-- The per-server-credential step of the merge,
`src/store/localCredentials.ts` lines 46-66: find the first local entry
with the same `id`; merge with it, otherwise take the server entry as-is. -/
def mergeStep (localCache : List Credential) (serverCred : Credential) : Credential :=
  match localCache.find? (fun lc => lc.id == serverCred.id) with
  | some localMatch => mergeEntry localMatch serverCred
  | none => serverCred

/-- `mergeWithLocalCredentials` of `src/store/localCredentials.ts`
(lines 40-71) with the storage state passed explicitly: `localCache` is the
current cache contents; the result is the returned merged list paired with
the cache contents afterwards.  An empty `serverCreds` returns the local
cache and performs no write (lines 43-44); otherwise the merged list is
written back (line 69). -/
def mergeWithLocalCredentials (serverCreds localCache : List Credential) :
    List Credential × List Credential :=
  if serverCreds.isEmpty then (localCache, localCache)
  else
    let merged := serverCreds.map (mergeStep localCache)
    (merged, merged)

/-- `AuthState` of `src/context/AuthContext.tsx` (full variant).
`expiresAt` is a JS number, so it can hold `NaN` (session restore stores
the raw `parseInt` result into the state). -/
structure AuthState where
  token : Option String
  expiresAt : Option JsNum
  sessionExpired : Bool
  nodeIdentifier : Option String
  baseUrl : Option String
deriving DecidableEq

/-- `AuthAction` of `src/context/AuthContext.tsx` (full variant). -/
inductive AuthAction where
  | SET_NODE (nodeIdentifier baseUrl : String)
  | SET_TOKEN (token : String) (expiresAt : JsNum)
  | SESSION_EXPIRED
  | LOGOUT
deriving DecidableEq

/-- `authReducer` of `src/context/AuthContext.tsx` (full variant,
lines 44-68). -/
def authReducer (state : AuthState) (action : AuthAction) : AuthState :=
  match action with
  | AuthAction.SET_NODE n b =>
      { state with nodeIdentifier := some n, baseUrl := some b }
  | AuthAction.SET_TOKEN t e =>
      { state with token := some t, expiresAt := some e, sessionExpired := false }
  | AuthAction.SESSION_EXPIRED =>
      { state with token := none, sessionExpired := true }
  | AuthAction.LOGOUT =>
      { token := none, expiresAt := none, sessionExpired := false,
        nodeIdentifier := none, baseUrl := none }

/-- The browser storage visible to the session manager, one field per key:
`neoke_s_token` and `neoke_s_expires` (sessionStorage), `neoke_node_id` and
`neoke_activity` (localStorage).  Numeric keys are stored as strings in the
source and parsed with `parseInt`; they are modelled already parsed as
`Option JsNum`: `none` is an absent or empty stored string (both falsy
before the `parseInt`), `some JsNum.nan` a present but non-numeric string
(`parseInt` returns `NaN`), `some (JsNum.int n)` a numeric one. -/
structure Storage where
  token : Option String
  expires : Option JsNum
  nodeId : Option String
  activity : Option JsNum
deriving DecidableEq

/-- 7-day inactivity window in milliseconds (`INACTIVITY_MS`). -/
def INACTIVITY_MS : Int := 7 * 24 * 60 * 60 * 1000

/-- `isWithinActivityWindow` of `src/context/AuthContext.tsx` (full
variant, lines 73-80): `!!last && Date.now() - parseInt(last) < INACTIVITY_MS`.
A non-numeric stored activity gives `now - NaN < INACTIVITY_MS`, which is
false. -/
def isWithinActivityWindow (st : Storage) (now : Int) : Bool :=
  match st.activity with
  | none => false
  | some JsNum.nan => false
  | some (JsNum.int last) => now - last < INACTIVITY_MS

/-- `nodeIdentifierToUrl` of `src/api/client.ts` (lines 33-38). -/
def nodeIdentifierToUrl (identifier : String) : String :=
  let id := identifier.trim
  if id.startsWith "http" then
    if id.endsWith "/" then id.dropRight 1 else id
  else if id.contains '.' then "https://" ++ id
  else "https://" ++ id ++ ".id-node.neoke.com"

/-- The all-null unauthenticated `AuthState` (`empty` in `initState`). -/
def emptyAuthState : AuthState :=
  { token := none, expiresAt := none, sessionExpired := false,
    nodeIdentifier := none, baseUrl := none }

/-- `initState` of `src/context/AuthContext.tsx` (full variant, lines
82-111): session restore run once at startup.  JS truthiness guards
(`!nodeId`, `!token`, `!expiresStr`) make an empty string count as absent.
The near-expiry guard `Date.now() >= expiresAt - 60_000` is false when the
stored expiry string parsed to `NaN`, so a non-numeric stored expiry slips
past it and an authenticated state carrying the `NaN` expiry is restored. -/
def initState (st : Storage) (now : Int) : AuthState :=
  if !isWithinActivityWindow st now then emptyAuthState
  else
    match st.nodeId with
    | none => emptyAuthState
    | some nodeId =>
      if nodeId = "" then emptyAuthState
      else
        match st.token, st.expires with
        | some token, some expiresAt =>
          if token = "" then emptyAuthState
          -- Treat as expired if within 1 min of expiry
          else if jsGeMinus now expiresAt 60000 then emptyAuthState
          else
            { token := some token, expiresAt := some expiresAt,
              sessionExpired := false, nodeIdentifier := some nodeId,
              baseUrl := some (nodeIdentifierToUrl nodeId) }
        | _, _ => emptyAuthState

/-- One firing of the expiry-watch interval of `src/context/AuthContext.tsx`
(full variant, lines 160-172).  The effect is armed only when
`state.token && state.expiresAt` are truthy; the tick dispatches
`SESSION_EXPIRED` when `state.expiresAt && Date.now() >= state.expiresAt - 300_000`. -/
def expiryWatchTick (state : AuthState) (now : Int) : AuthState :=
  if !(truthyS state.token && truthyI state.expiresAt) then state
  else
    match state.expiresAt with
    | some expiresAt =>
        if truthyN expiresAt && jsGeMinus now expiresAt 300000 then
          authReducer state AuthAction.SESSION_EXPIRED
        else state
    | none => state

/-- Whether the storage layer is throwing (quota exceeded, storage
disabled): in mode `failing` every `getItem`/`setItem`/`removeItem` call
throws. -/
inductive StorageMode where
  | ok
  | failing
deriving DecidableEq

/-- The persist effect of `src/context/AuthContext.tsx` (full variant,
lines 141-157).  Both branches wrap their storage writes in try/catch, so
under a throwing storage layer the effect returns normally and the storage
is left unchanged (the first write throws before any mutation). -/
def persistEffect (m : StorageMode) (state : AuthState) (st : Storage)
    (now : Int) : Storage :=
  if truthyS state.token && truthyI state.expiresAt && truthyS state.nodeIdentifier then
    match m with
    | StorageMode.ok =>
        { st with token := state.token, expires := state.expiresAt,
                  nodeId := state.nodeIdentifier,
                  activity := some (JsNum.int now) }
    | StorageMode.failing => st
  else if !truthyS state.token && state.sessionExpired then
    -- Token expired: clear sessionStorage but keep node in localStorage
    match m with
    | StorageMode.ok => { st with token := none, expires := none }
    | StorageMode.failing => st
  else st

/-- `logout` of `src/context/AuthContext.tsx` (full variant, lines
190-198): removes the short-lived token and expiry and the activity
timestamp (inside try/catch), intentionally keeps `neoke_node_id`, then
dispatches `LOGOUT`. -/
def logout (m : StorageMode) (st : Storage) (state : AuthState) :
    Storage × AuthState :=
  (match m with
   | StorageMode.ok => { st with token := none, expires := none, activity := none }
   | StorageMode.failing => st,
   authReducer state AuthAction.LOGOUT)

/-- `initState` with the storage layer's availability made explicit: in
mode `failing` the first `localStorage.getItem` inside
`isWithinActivityWindow` throws, its catch returns `false`, and `initState`
returns `empty` (its own try/catch would also return `empty`). -/
def initStateE (m : StorageMode) (st : Storage) (now : Int) : AuthState :=
  match m with
  | StorageMode.ok => initState st now
  | StorageMode.failing => emptyAuthState

/-- A raw `localStorage.getItem` on the credential cache: throws in mode
`failing`. -/
def lsGet (m : StorageMode) (store : List Credential) :
    Except Unit (List Credential) :=
  match m with
  | StorageMode.ok => Except.ok store
  | StorageMode.failing => Except.error ()

/-- A raw `localStorage.setItem` on the credential cache: throws in mode
`failing`, otherwise the cache now holds the new list. -/
def lsSet (m : StorageMode) (new : List Credential) :
    Except Unit (List Credential) :=
  match m with
  | StorageMode.ok => Except.ok new
  | StorageMode.failing => Except.error ()

/-- `getLocalCredentials` of `src/store/localCredentials.ts` (lines 5-12):
the read is wrapped in try/catch and degrades to `[]`, so the operation is
total. -/
def getLocalCredentialsE (m : StorageMode) (store : List Credential) :
    List Credential :=
  match lsGet m store with
  | Except.ok l => l
  | Except.error _ => []

/-- `saveLocalCredential` of `src/store/localCredentials.ts` (lines 14-18):
the read degrades via `getLocalCredentials`, but the `setItem` write is not
wrapped in try/catch, so a throwing storage layer propagates to the caller.
On success the result is the new cache contents. -/
def saveLocalCredentialE (m : StorageMode) (store : List Credential)
    (credential : Credential) : Except Unit (List Credential) :=
  let existing := getLocalCredentialsE m store
  let updated := credential :: existing.filter (fun c => c.id ≠ credential.id)
  lsSet m updated

/-- `deleteLocalCredential` of `src/store/localCredentials.ts` (lines
20-24): same unguarded `setItem` write as `saveLocalCredential`. -/
def deleteLocalCredentialE (m : StorageMode) (store : List Credential)
    (id : String) : Except Unit (List Credential) :=
  let existing := getLocalCredentialsE m store
  let updated := existing.filter (fun c => c.id ≠ id)
  lsSet m updated

/-- `mergeWithLocalCredentials` with the storage layer's availability made
explicit (`src/store/localCredentials.ts` lines 40-71): the read degrades
to `[]`, the empty-server guard returns without writing, and the final
`setItem` (line 69) is not wrapped in try/catch.  On success the result is
the returned merged list paired with the new cache contents. -/
def mergeWithLocalCredentialsE (m : StorageMode) (store : List Credential)
    (serverCreds : List Credential) :
    Except Unit (List Credential × List Credential) :=
  let localCache := getLocalCredentialsE m store
  if serverCreds.isEmpty then Except.ok (localCache, store)
  else
    let merged := serverCreds.map (mergeStep localCache)
    match lsSet m merged with
    | Except.ok newStore => Except.ok (merged, newStore)
    | Except.error e => Except.error e

/-- The outcome of an `ApiError` thrown by the API client
(`src/api/client.ts`): `status` is the optional HTTP status code. -/
inductive FetchError where
  | api (status : Option Nat)
  | network
deriving DecidableEq

/-- The result of `discoverWalletCredentials` as observed by the dashboard:
either a credential list or a thrown error. -/
inductive FetchResult where
  | ok (creds : List Credential)
  | err (e : FetchError)
deriving DecidableEq

/-- The observable outcome of one `fetchCredentials` cycle of
`src/screens/DashboardScreen.tsx`: `displayed` is the argument of the last
`setCredentials` call (`none` when it is never called), `store` the
credential cache contents afterwards. -/
structure DashOutcome where
  displayed : Option (List Credential)
  store : List Credential
  usingLocalFallback : Bool
  errorShown : Bool
  markedExpired : Bool
deriving DecidableEq

/-- `fetchCredentials` of `src/screens/DashboardScreen.tsx` (lines 31-65),
with the server interaction abstracted into its result.  An empty server
list clears the local cache (lines 40-43); a non-empty one is merged
(lines 44-47); an `ApiError` with HTTP status 401 calls `markExpired` and
returns without touching the displayed list (lines 48-54); any other
failure falls back to the local cache, showing the offline badge when it is
non-empty and an error message when it is empty (lines 55-61). -/
def fetchCredentials (res : FetchResult) (store : List Credential) :
    DashOutcome :=
  match res with
  | FetchResult.ok serverCreds =>
    if serverCreds.isEmpty then
      { displayed := some [], store := [], usingLocalFallback := false,
        errorShown := false, markedExpired := false }
    else
      let p := mergeWithLocalCredentials serverCreds store
      { displayed := some p.1, store := p.2, usingLocalFallback := false,
        errorShown := false, markedExpired := false }
  | FetchResult.err e =>
    if e = FetchError.api (some 401) then
      { displayed := none, store := store, usingLocalFallback := false,
        errorShown := false, markedExpired := true }
    else
      let localCache := store
      { displayed := some localCache, store := store,
        usingLocalFallback := !localCache.isEmpty,
        errorShown := localCache.isEmpty, markedExpired := false }

/-! Helper lemmas. -/

theorem orJS_absorb {α : Type} (a b : Option α) : orJS a (orJS a b) = orJS a b := by
  cases a <;> rfl

theorem orJS_self {α : Type} (a : Option α) : orJS a a = a := by
  cases a <;> rfl

theorem orStr_absorb (a b : String) : orStr a (orStr a b) = orStr a b := by
  by_cases h : a = "" <;> simp [orStr, h]

theorem orStr_self (a : String) : orStr a a = a := by
  by_cases h : a = "" <;> simp [orStr, h]

theorem mergeEntry_id (l s : Credential) : (mergeEntry l s).id = s.id := rfl

theorem mergeStep_id (L : List Credential) (s : Credential) :
    (mergeStep L s).id = s.id := by
  unfold mergeStep
  cases h : L.find? (fun lc => lc.id == s.id) <;> simp [mergeEntry]

theorem mergeEntry_absorb (l s : Credential) :
    mergeEntry (mergeEntry l s) s = mergeEntry l s := by
  simp [mergeEntry, orJS_absorb, orStr_absorb]

theorem mergeEntry_self (s : Credential) : mergeEntry s s = s := by
  simp [mergeEntry, orJS_self, orStr_self]

theorem mergeStep_absorb (L : List Credential) (s : Credential) :
    mergeEntry (mergeStep L s) s = mergeStep L s := by
  unfold mergeStep
  cases h : L.find? (fun lc => lc.id == s.id)
  · exact mergeEntry_self s
  · exact mergeEntry_absorb _ s

theorem find?_map_mergeStep (L : List Credential) :
    ∀ (S : List Credential) (s : Credential), s ∈ S →
      S.Pairwise (fun a b => a.id ≠ b.id) →
      (S.map (mergeStep L)).find? (fun m => m.id == s.id) = some (mergeStep L s) := by
  intro S
  induction S with
  | nil => intro s hs _; cases hs
  | cons a T ih =>
    intro s hs hp
    rw [List.pairwise_cons] at hp
    obtain ⟨ha, hp2⟩ := hp
    rcases List.mem_cons.mp hs with h | h
    · subst h
      rw [List.map_cons, List.find?_cons_of_pos]
      simp [mergeStep_id]
    · have hne : a.id ≠ s.id := ha s h
      rw [List.map_cons, List.find?_cons_of_neg, ih s h hp2]
      simp [mergeStep_id, hne]

theorem mergeStep_merged (L S : List Credential) (s : Credential)
    (hs : s ∈ S) (hdist : S.Pairwise (fun a b => a.id ≠ b.id)) :
    mergeStep (S.map (mergeStep L)) s = mergeStep L s := by
  have hf := find?_map_mergeStep L S s hs hdist
  unfold mergeStep
  unfold mergeStep at hf
  rw [hf]
  exact mergeStep_absorb L s

theorem mergeWithLocalCredentialsE_ok (store S : List Credential) :
    mergeWithLocalCredentialsE StorageMode.ok store S =
      Except.ok (mergeWithLocalCredentials S store) := by
  cases S <;> rfl

/-- `acts.foldl authReducer init`: the state after dispatching a sequence
of actions starting from `init`. -/
def applyActions (init : AuthState) (actions : List AuthAction) : AuthState :=
  actions.foldl authReducer init

theorem authReducer_preserves_inv (s : AuthState) (a : AuthAction)
    (h : s.sessionExpired = true → s.token = none) :
    (authReducer s a).sessionExpired = true → (authReducer s a).token = none := by
  cases a with
  | SET_NODE n b => simp [authReducer]; exact fun hc => h hc
  | SET_TOKEN t e => simp [authReducer]
  | SESSION_EXPIRED => simp [authReducer]
  | LOGOUT => simp [authReducer]

theorem initState_sessionExpired (st : Storage) (now : Int) :
    (initState st now).sessionExpired = false := by
  unfold initState
  split
  · rfl
  · split
    · rfl
    · split
      · rfl
      · split
        · split
          · rfl
          · split
            · rfl
            · rfl
        · rfl

/-! Claim theorems. -/

/-- C1: for every server-reported credential `s` whose id finds a match `l`
in the local cache, the entry `mergeEntry l s` is in the merged list
produced by `mergeWithLocalCredentials`, and it takes the server's `id`,
`issuer`, `expirationDate` and `status` where the server supplies them
while keeping the local entry's `namespaces`, `displayMetadata` and claim
list whenever the corresponding server field is absent. -/
theorem merge_server_wins_local_survives
    (S L : List Credential) (s l : Credential)
    (hs : s ∈ S)
    (hfind : L.find? (fun lc => lc.id == s.id) = some l) :
    mergeEntry l s ∈ (mergeWithLocalCredentials S L).1
    ∧ (mergeEntry l s).id = s.id
    ∧ (s.issuer ≠ "" → (mergeEntry l s).issuer = s.issuer)
    ∧ (∀ d, s.expirationDate = some d → (mergeEntry l s).expirationDate = some d)
    ∧ (∀ c, s.status = some c → (mergeEntry l s).status = some c)
    ∧ (s.namespaces = none → (mergeEntry l s).namespaces = l.namespaces)
    ∧ (s.displayMetadata = none → (mergeEntry l s).displayMetadata = l.displayMetadata)
    ∧ (s._availableClaims = none → (mergeEntry l s)._availableClaims = l._availableClaims) := by
  refine ⟨?_, rfl, ?_, ?_, ?_, ?_, ?_, ?_⟩
  · cases S with
    | nil => cases hs
    | cons a T =>
      show mergeEntry l s ∈ (a :: T).map (mergeStep L)
      exact List.mem_map.mpr ⟨s, hs, by simp [mergeStep, hfind]⟩
  · intro h; simp [mergeEntry, orStr, h]
  · intro d hd; simp [mergeEntry, orJS, hd]
  · intro c hc; simp [mergeEntry, orJS, hc]
  · intro h; simp [mergeEntry, orJS, h]
  · intro h; simp [mergeEntry, orJS, h]
  · intro h; simp [mergeEntry, orJS, h]

/-- C1 witness: the spec's own example.  Merging the local credential with
id `X`, namespaces and a display label against the server credential with
id `X`, issuer `I2` and status `revoked` keeps the local namespaces and
display metadata and takes the server issuer and status. -/
theorem merge_server_wins_local_survives_witness :
    (mergeWithLocalCredentials
        [{ id := "X", issuer := "I2", status := some CredentialStatus.revoked }]
        [{ id := "X", namespaces := some [("a", [("v", JsonVal.num 1)])],
           displayMetadata := some { label := some "L" } }]).1
      = [{ id := "X", issuer := "I2", status := some CredentialStatus.revoked,
           namespaces := some [("a", [("v", JsonVal.num 1)])],
           displayMetadata := some { label := some "L" } }]
    ∧ mergeEntry
        { id := "X", namespaces := some [("a", [("v", JsonVal.num 1)])],
          displayMetadata := some { label := some "L" } }
        { id := "X", issuer := "I2", status := some CredentialStatus.revoked }
        ∈ (mergeWithLocalCredentials
            [{ id := "X", issuer := "I2", status := some CredentialStatus.revoked }]
            [{ id := "X", namespaces := some [("a", [("v", JsonVal.num 1)])],
               displayMetadata := some { label := some "L" } }]).1 := by
  refine ⟨by decide, ?_⟩
  exact (merge_server_wins_local_survives _ _
    { id := "X", issuer := "I2", status := some CredentialStatus.revoked }
    { id := "X", namespaces := some [("a", [("v", JsonVal.num 1)])],
      displayMetadata := some { label := some "L" } }
    (by decide) (by decide)).1

/-- C2: a credential-fetch cycle whose server fetch fails with an
`ApiError` of HTTP status 401 signals session expiry, never calls
`setCredentials`, and does not fall back to the local cache. -/
theorem fetchCredentials_auth_failure_no_fallback (store : List Credential) :
    (fetchCredentials (FetchResult.err (FetchError.api (some 401))) store).markedExpired = true
    ∧ (fetchCredentials (FetchResult.err (FetchError.api (some 401))) store).displayed = none
    ∧ (fetchCredentials (FetchResult.err (FetchError.api (some 401))) store).usingLocalFallback = false
    ∧ (fetchCredentials (FetchResult.err (FetchError.api (some 401))) store).store = store :=
  ⟨rfl, rfl, rfl, rfl⟩

/-- C6: `mergeWithLocalCredentials` on an empty server list returns the
local cache unchanged and does not rewrite storage, and repeating the call
gives the same result; the dashboard's reconciliation of an empty server
list deterministically displays the empty list, and repeating the cycle on
the resulting cache gives the same outcome. -/
theorem merge_empty_server_guard (L : List Credential) :
    mergeWithLocalCredentials [] L = (L, L)
    ∧ mergeWithLocalCredentials [] (mergeWithLocalCredentials [] L).2
        = mergeWithLocalCredentials [] L
    ∧ (fetchCredentials (FetchResult.ok []) L).displayed = some []
    ∧ (fetchCredentials (FetchResult.ok []) L).store = []
    ∧ fetchCredentials (FetchResult.ok []) ((fetchCredentials (FetchResult.ok []) L).store)
        = fetchCredentials (FetchResult.ok []) L :=
  ⟨rfl, rfl, rfl, rfl, rfl⟩

/-- C9: after `logout` (with the storage layer available) the short-lived
token and expiry and the durable activity timestamp are removed from
storage, the remembered node identifier stays readable, and the in-memory
state has token, expiry and the expiry flag cleared. -/
theorem logout_clears_session_keeps_node (st : Storage) (state : AuthState) :
    (logout StorageMode.ok st state).1.token = none
    ∧ (logout StorageMode.ok st state).1.expires = none
    ∧ (logout StorageMode.ok st state).1.activity = none
    ∧ (logout StorageMode.ok st state).1.nodeId = st.nodeId
    ∧ (logout StorageMode.ok st state).2.token = none
    ∧ (logout StorageMode.ok st state).2.expiresAt = none
    ∧ (logout StorageMode.ok st state).2.sessionExpired = false :=
  ⟨rfl, rfl, rfl, rfl, rfl, rfl, rfl⟩

/-- C10: in the auth reducer of the full session manager, every state
reachable from the restored initial state by any sequence of actions
satisfies: if `sessionExpired` is true then `token` is null. -/
theorem authReducer_reachable_invariant (st : Storage) (now : Int)
    (actions : List AuthAction) :
    (applyActions (initState st now) actions).sessionExpired = true →
    (applyActions (initState st now) actions).token = none := by
  suffices h : ∀ (s : AuthState), (s.sessionExpired = true → s.token = none) →
      (applyActions s actions).sessionExpired = true →
      (applyActions s actions).token = none by
    exact h (initState st now) (by rw [initState_sessionExpired]; intro hc; cases hc)
  induction actions with
  | nil => intro s hs; exact hs
  | cons a T ih =>
    intro s hs
    exact ih (authReducer s a) (authReducer_preserves_inv s a hs)

/-- C10 witness: the invariant instantiated after dispatching
`SESSION_EXPIRED` from the restored state of an empty storage. -/
theorem authReducer_reachable_invariant_witness :
    (applyActions (initState ⟨none, none, none, none⟩ 0)
        [AuthAction.SESSION_EXPIRED]).token = none :=
  authReducer_reachable_invariant ⟨none, none, none, none⟩
    0 [AuthAction.SESSION_EXPIRED] (by decide)

/-- C3 counterexample: a present but non-numeric stored expiry string
parses to `NaN`, and the near-expiry guard `Date.now() >= NaN - 60_000` is
false, so session restore returns an authenticated state carrying the
`NaN` expiry instead of the unauthenticated state the claim requires (the
activity window holds, the node id and token are present, but no valid
fresh numeric expiry exists). -/
theorem initState_nan_expiry_cex :
    (initState ⟨some "tok", some JsNum.nan, some "node", some (JsNum.int 0)⟩
        1000).token = some "tok"
    ∧ (initState ⟨some "tok", some JsNum.nan, some "node", some (JsNum.int 0)⟩
        1000).expiresAt = some JsNum.nan
    ∧ initState ⟨some "tok", some JsNum.nan, some "node", some (JsNum.int 0)⟩
        1000 ≠ emptyAuthState := by
  refine ⟨rfl, rfl, fun h => ?_⟩
  have h2 : (some "tok" : Option String) = none := congrArg AuthState.token h
  cases h2

/-- C3 (amended): session restore returns the unauthenticated state unless
a numeric last-activity timestamp within the 7-day window, a non-empty
remembered node identifier, a non-empty stored token and a stored expiry
all exist, where the stored expiry is either non-numeric (`parseInt` gives
`NaN`, which defeats the near-expiry guard) or numeric with
`now < expiresAt - 60000`; when these hold it returns an authenticated
state carrying that token and that parsed expiry.  In particular, with a
numeric expiry, restore succeeds at `lastActivity + 7 days - 1 ms` and is
rejected at `lastActivity + 7 days + 1 ms` and when
`expiresAt = now + 30000`. -/
theorem initState_restore_conditions (st : Storage) (now : Int) :
    (initState st now ≠ emptyAuthState →
      ∃ last n t e, st.activity = some (JsNum.int last) ∧
        now - last < INACTIVITY_MS ∧
        st.nodeId = some n ∧ n ≠ "" ∧ st.token = some t ∧ t ≠ "" ∧
        st.expires = some e ∧
        (e = JsNum.nan ∨ ∃ v, e = JsNum.int v ∧ now < v - 60000) ∧
        initState st now =
          { token := some t, expiresAt := some e, sessionExpired := false,
            nodeIdentifier := some n, baseUrl := some (nodeIdentifierToUrl n) })
    ∧ (∀ last n t v, st.activity = some (JsNum.int last) →
        now - last < INACTIVITY_MS →
        st.nodeId = some n → n ≠ "" → st.token = some t → t ≠ "" →
        st.expires = some (JsNum.int v) → now < v - 60000 →
        initState st now =
          { token := some t, expiresAt := some (JsNum.int v),
            sessionExpired := false, nodeIdentifier := some n,
            baseUrl := some (nodeIdentifierToUrl n) }) := by
  constructor
  · intro hne
    by_cases hw : isWithinActivityWindow st now = true
    case neg => simp [initState, hw] at hne
    rcases hact : st.activity with _ | la
    · rw [isWithinActivityWindow, hact] at hw; cases hw
    rcases la with _ | last
    · rw [isWithinActivityWindow, hact] at hw; cases hw
    rcases hnode : st.nodeId with _ | n
    · simp [initState, hw, hnode] at hne
    by_cases hn0 : n = ""
    · simp [initState, hw, hnode, hn0] at hne
    rcases htok : st.token with _ | t
    · simp [initState, hw, hnode, hn0, htok] at hne
    rcases hexp : st.expires with _ | e
    · simp [initState, hw, hnode, hn0, htok, hexp] at hne
    by_cases ht0 : t = ""
    · simp [initState, hw, hnode, hn0, htok, hexp, ht0] at hne
    by_cases hlate : jsGeMinus now e 60000 = true
    · simp [initState, hw, hnode, hn0, htok, hexp, ht0, hlate] at hne
    refine ⟨last, n, t, e, rfl, ?_, rfl, hn0, rfl, ht0, rfl, ?_, ?_⟩
    · rw [isWithinActivityWindow, hact] at hw
      exact of_decide_eq_true hw
    · cases e with
      | nan => exact Or.inl rfl
      | int v =>
        refine Or.inr ⟨v, rfl, ?_⟩
        simp [jsGeMinus] at hlate
        omega
    · simp [initState, hw, hnode, hn0, htok, hexp, ht0, hlate]
  · intro last n t v hact hwin hnode hn0 htok ht0 hexp hfresh
    have hw : isWithinActivityWindow st now = true := by
      rw [isWithinActivityWindow, hact]
      exact decide_eq_true hwin
    have hlate : jsGeMinus now (JsNum.int v) 60000 = false := by
      simp [jsGeMinus]
      omega
    simp [initState, hw, hnode, hn0, htok, hexp, ht0, hlate]

/-- C3 witness: with activity at 0, node `node`, token `tok` and numeric
expiry 900000000, restore at 7 days minus 1 ms succeeds; restore at 7 days
plus 1 ms returns the unauthenticated state; and a stored numeric expiry
only 30 seconds past `now` is rejected. -/
theorem initState_restore_conditions_witness :
    initState ⟨some "tok", some (JsNum.int 900000000), some "node",
        some (JsNum.int 0)⟩ 604799999
      = ⟨some "tok", some (JsNum.int 900000000), false, some "node",
          some (nodeIdentifierToUrl "node")⟩
    ∧ initState ⟨some "tok", some (JsNum.int 900000000), some "node",
        some (JsNum.int 0)⟩ 604800001 = emptyAuthState
    ∧ initState ⟨some "tok", some (JsNum.int 31000), some "node",
        some (JsNum.int 0)⟩ 1000 = emptyAuthState := by
  refine ⟨?_, by decide, by decide⟩
  exact (initState_restore_conditions
    ⟨some "tok", some (JsNum.int 900000000), some "node", some (JsNum.int 0)⟩
    604799999).2
    0 "node" "tok" 900000000 rfl (by decide) rfl (by decide) rfl (by decide)
    rfl (by decide)

/-- C4: for an authenticated session holding a token with expiry `T`, the
expiry-watch check transitions to the expired state (dispatching
`SESSION_EXPIRED`, which clears the token and sets the flag) exactly when
`now ≥ T - 300000`, and leaves the state untouched when
`now < T - 300000`. -/
theorem expiryWatchTick_boundary (state : AuthState) (now T : Int)
    (tok : String) (htok : state.token = some tok) (htok0 : tok ≠ "")
    (hexp : state.expiresAt = some (JsNum.int T)) (hT : T ≠ 0) :
    (now ≥ T - 300000 →
      expiryWatchTick state now = authReducer state AuthAction.SESSION_EXPIRED
      ∧ (expiryWatchTick state now).sessionExpired = true
      ∧ (expiryWatchTick state now).token = none)
    ∧ (now < T - 300000 → expiryWatchTick state now = state) := by
  constructor
  · intro h
    have heq : expiryWatchTick state now = authReducer state AuthAction.SESSION_EXPIRED := by
      simp [expiryWatchTick, htok, hexp, truthyS, truthyI, truthyN, jsGeMinus,
        htok0, hT, h]
    exact ⟨heq, by rw [heq]; simp [authReducer], by rw [heq]; simp [authReducer]⟩
  · intro h
    simp [expiryWatchTick, htok, hexp, truthyS, truthyI, truthyN, jsGeMinus,
      htok0, hT]
    intro hc
    exact absurd hc (by omega)

/-- C4 witness: with token `tok` and expiry 1000000, a check at 700000
(exactly 5 minutes before expiry) expires the session and clears the
token, while a check at 699999 leaves the state unchanged. -/
theorem expiryWatchTick_boundary_witness :
    (expiryWatchTick ⟨some "tok", some (JsNum.int 1000000), false, none, none⟩
        700000).sessionExpired = true
    ∧ (expiryWatchTick ⟨some "tok", some (JsNum.int 1000000), false, none, none⟩
        700000).token = none
    ∧ expiryWatchTick ⟨some "tok", some (JsNum.int 1000000), false, none, none⟩
        699999
      = ⟨some "tok", some (JsNum.int 1000000), false, none, none⟩ := by
  refine ⟨?_, ?_, ?_⟩
  · exact ((expiryWatchTick_boundary _ 700000 1000000 "tok" rfl (by decide)
      rfl (by decide)).1 (by decide)).2.1
  · exact ((expiryWatchTick_boundary _ 700000 1000000 "tok" rfl (by decide)
      rfl (by decide)).1 (by decide)).2.2
  · exact (expiryWatchTick_boundary _ 699999 1000000 "tok" rfl (by decide)
      rfl (by decide)).2 (by decide)

/-- C5 counterexample: a server credential with a fresh id is taken as-is
even though a local entry agrees on `docType`, on a `type` tag and on
`issuer` and carries namespaces: no docType or type-overlap fallback
matching happens, so the local field data is not carried over. -/
theorem merge_no_docType_fallback_cex :
    (mergeWithLocalCredentials
        [{ id := "B", type := ["T"], issuer := "I", docType := some "D" }]
        [{ id := "A", type := ["T"], issuer := "I", docType := some "D",
           namespaces := some [("ns", [])] }]).1
      = [{ id := "B", type := ["T"], issuer := "I", docType := some "D" }]
    ∧ ([{ id := "B", type := ["T"], issuer := "I", docType := some "D" }]
        : List Credential).all (fun c => c.namespaces = none) = true := by
  exact ⟨by decide, by decide⟩

/-- C5 (amended): server credentials are matched to local entries by
identical `id` only (the first id match wins); a server credential whose id
matches no local entry is taken into the merged list as-is, regardless of
any `docType` or type-overlap/issuer agreement. -/
theorem merge_id_only_matching (S L : List Credential) (s : Credential)
    (hs : s ∈ S) (hno : ∀ l ∈ L, l.id ≠ s.id) :
    mergeStep L s = s ∧ s ∈ (mergeWithLocalCredentials S L).1 := by
  have hfind : L.find? (fun lc => lc.id == s.id) = none := by
    rw [List.find?_eq_none]
    intro l hl
    simp [hno l hl]
  have hstep : mergeStep L s = s := by simp [mergeStep, hfind]
  refine ⟨hstep, ?_⟩
  cases S with
  | nil => cases hs
  | cons a T =>
    show s ∈ (a :: T).map (mergeStep L)
    exact List.mem_map.mpr ⟨s, hs, hstep⟩

/-- C5 witness: the amended matching rule applied to the counterexample
input: id `B` matches nothing in a cache whose only entry has id `A`, so
the server stub itself lands in the merged list. -/
theorem merge_id_only_matching_witness :
    mergeStep
      [{ id := "A", type := ["T"], issuer := "I", docType := some "D",
         namespaces := some [("ns", [])] }]
      { id := "B", type := ["T"], issuer := "I", docType := some "D" }
      = { id := "B", type := ["T"], issuer := "I", docType := some "D" }
    ∧ ({ id := "B", type := ["T"], issuer := "I", docType := some "D" } : Credential)
      ∈ (mergeWithLocalCredentials
          [{ id := "B", type := ["T"], issuer := "I", docType := some "D" }]
          [{ id := "A", type := ["T"], issuer := "I", docType := some "D",
             namespaces := some [("ns", [])] }]).1 :=
  merge_id_only_matching _ _ _ (by decide) (by decide)

/-- C7 counterexample: with two server credentials sharing an id but
differing in `type`, merging twice in a row (the second call reading the
cache written by the first) returns a different list the second time. -/
theorem merge_not_idempotent_cex :
    (mergeWithLocalCredentials
        [{ id := "X", type := ["T1"], issuer := "A" },
         { id := "X", type := ["T2"], issuer := "A" }]
        (mergeWithLocalCredentials
          [{ id := "X", type := ["T1"], issuer := "A" },
           { id := "X", type := ["T2"], issuer := "A" }] []).2).1
      ≠ (mergeWithLocalCredentials
          [{ id := "X", type := ["T1"], issuer := "A" },
           { id := "X", type := ["T2"], issuer := "A" }] []).1 := by
  decide

/-- C7 (amended): when the server credentials carry pairwise distinct ids,
merging the same server list twice in a row (the second call reading the
cache written by the first) returns the same merged list and leaves the
cache contents equal to those after the first call. -/
theorem merge_idempotent_distinct_ids (S L : List Credential)
    (hdist : S.Pairwise (fun a b => a.id ≠ b.id)) :
    mergeWithLocalCredentials S (mergeWithLocalCredentials S L).2
      = mergeWithLocalCredentials S L := by
  cases S with
  | nil => rfl
  | cons a T =>
    have hpt : (a :: T).map (mergeStep ((a :: T).map (mergeStep L)))
        = (a :: T).map (mergeStep L) :=
      List.map_congr_left (fun s hsmem => mergeStep_merged L (a :: T) s hsmem hdist)
    show ((a :: T).map (mergeStep ((a :: T).map (mergeStep L))),
          (a :: T).map (mergeStep ((a :: T).map (mergeStep L))))
        = ((a :: T).map (mergeStep L), (a :: T).map (mergeStep L))
    rw [hpt]

/-- C7 witness: the amended idempotence applied at a concrete distinct-id
server list against a concrete non-empty cache. -/
theorem merge_idempotent_distinct_ids_witness :
    mergeWithLocalCredentials
        [{ id := "X", issuer := "I1" }, { id := "Y", issuer := "I2" }]
        (mergeWithLocalCredentials
          [{ id := "X", issuer := "I1" }, { id := "Y", issuer := "I2" }]
          [{ id := "X", namespaces := some [("a", [])] }]).2
      = mergeWithLocalCredentials
          [{ id := "X", issuer := "I1" }, { id := "Y", issuer := "I2" }]
          [{ id := "X", namespaces := some [("a", [])] }] :=
  merge_idempotent_distinct_ids _ _ (by decide)

/-- C8 counterexample: with the storage layer throwing, `saveLocalCredential`
does not catch the `setItem` failure: the exception propagates to the
caller instead of the operation degrading silently. -/
theorem saveLocalCredential_failure_propagates_cex :
    saveLocalCredentialE StorageMode.failing [] { id := "c" } = Except.error () :=
  rfl

/-- C8 (amended): a storage-layer failure is caught inside session restore,
the token-persistence effect and logout, which degrade to the session not
being remembered with a consistent in-memory state, and inside credential
cache reads, which degrade to an empty list; but the unguarded `setItem`
write inside `saveLocalCredential`, `deleteLocalCredential` and
`mergeWithLocalCredentials` (on a non-empty server list) propagates the
failure to the caller. -/
theorem storage_failure_containment (st : Storage) (state : AuthState)
    (now : Int) (store S : List Credential) (c : Credential) (i : String)
    (hS : S ≠ []) :
    initStateE StorageMode.failing st now = emptyAuthState
    ∧ persistEffect StorageMode.failing state st now = st
    ∧ logout StorageMode.failing st state = (st, authReducer state AuthAction.LOGOUT)
    ∧ getLocalCredentialsE StorageMode.failing store = []
    ∧ saveLocalCredentialE StorageMode.failing store c = Except.error ()
    ∧ deleteLocalCredentialE StorageMode.failing store i = Except.error ()
    ∧ mergeWithLocalCredentialsE StorageMode.failing store S = Except.error () := by
  refine ⟨rfl, ?_, rfl, rfl, rfl, rfl, ?_⟩
  · unfold persistEffect
    split
    · rfl
    · split <;> rfl
  · cases S with
    | nil => exact absurd rfl hS
    | cons a T => rfl

/-- C8 witness: the containment statement at concrete inputs, with a
one-element server list. -/
theorem storage_failure_containment_witness :
    initStateE StorageMode.failing ⟨none, none, none, none⟩ 0 = emptyAuthState
    ∧ persistEffect StorageMode.failing emptyAuthState ⟨none, none, none, none⟩ 0
        = ⟨none, none, none, none⟩
    ∧ logout StorageMode.failing ⟨none, none, none, none⟩ emptyAuthState
        = (⟨none, none, none, none⟩, authReducer emptyAuthState AuthAction.LOGOUT)
    ∧ getLocalCredentialsE StorageMode.failing [] = []
    ∧ saveLocalCredentialE StorageMode.failing [] { id := "a" } = Except.error ()
    ∧ deleteLocalCredentialE StorageMode.failing [] "a" = Except.error ()
    ∧ mergeWithLocalCredentialsE StorageMode.failing [] [{ id := "a" }]
        = Except.error () :=
  storage_failure_containment ⟨none, none, none, none⟩ emptyAuthState 0 []
    [{ id := "a" }] { id := "a" } "a" (by decide)

end NeokeWallet
